import Mathlib

/-!
Shallow embedding of the Board Game Cafe repository (files `BGC.py`,
`BGC_person.py`, `BGC_menu.py`, `BGC_operation.py`, `demo.py`).

Conventions of the embedding:
* Python `datetime` values are minutes since an arbitrary epoch (`Int`);
  a calendar day is 1440 minutes, so `strptime` of a date string `d` plus a
  time-of-day string `h:m` is `d * 1440 + (h * 60 + m)`.
* Money is `ℚ` (the programs only add, subtract and scale amounts).
* A Python method that can `raise` is embedded as an `Except PyErr _`;
  methods that both mutate `self` and may raise return the mutated object
  alongside the outcome when the mutation survives the exception.
* Object aliasing is made explicit: operations that touch both a
  reservation and its table take the table state as an argument and return
  the updated table state.
* The Python name mangling of `__name` attributes inside a `class` body,
  and the `ABCMeta` rule that a class with unoverridden abstract methods
  cannot be instantiated, are embedded literally for the payment classes,
  because the behaviour of that code depends on them.
-/

/-- Python exceptions raised by the embedded code. -/
inductive PyErr where
  | valueError (msg : String)
  | attributeError (name : String)
  | typeError (msg : String)
deriving Repr, DecidableEq

/-- `GameStatus` enum from `BGC_operation.py`. -/
inductive GameStatus where
  | AVAILABLE
  | IN_USE
  | MAINTENANCE
  | RETIRED
deriving Repr, DecidableEq

/-- `TableStatus` enum from `BGC_operation.py`. -/
inductive TableStatus where
  | AVAILABLE
  | OCCUPIED
  | RESERVED
  | MAINTENANCE
deriving Repr, DecidableEq

/-- `ReservationStatus` enum from `BGC_operation.py`. -/
inductive ReservationStatus where
  | PENDING
  | CONFIRMED
  | CHECKED_IN
  | COMPLETED
  | CANCELLED
  | NO_SHOW
deriving Repr, DecidableEq

/-- `PaymentStatus` enum from `BGC_operation.py`. -/
inductive PaymentStatus where
  | PENDING
  | PROCESSING
  | COMPLETED
  | FAILED
  | REFUNDED
deriving Repr, DecidableEq

/-- The `.value` string of a `ReservationStatus` member (used by the
string-based status comparisons in `BGC_person.py`). -/
def ReservationStatus.value : ReservationStatus → String
  | .PENDING => "Pending"
  | .CONFIRMED => "Confirmed"
  | .CHECKED_IN => "Checked In"
  | .COMPLETED => "Completed"
  | .CANCELLED => "Cancelled"
  | .NO_SHOW => "No Show"

/-- `RESERVATION_GRACE_PERIOD_MINUTES` constant from `BGC_operation.py`. -/
def RESERVATION_GRACE_PERIOD_MINUTES : Int := 15

/-- `DEFAULT_TABLE_PRICE_PER_HOUR_THB` constant from `BGC_operation.py`. -/
def DEFAULT_TABLE_PRICE_PER_HOUR_THB : ℚ := 50

/-- `VIP_ROOM_BASE_FEE_THB` constant from `BGC_operation.py`. -/
def VIP_ROOM_BASE_FEE_THB : ℚ := 200

/-- Minutes-since-epoch of `datetime.strptime(f"{d} {h}:{m}", "%Y-%m-%d %H:%M")`
where `d` indexes the calendar day: the two time components are combined with
the single date argument. -/
def mkDatetime (d : Int) (h m : Nat) : Int := d * 1440 + ((h : Int) * 60 + (m : Int))

/-- Calendar day of a minutes-since-epoch timestamp. -/
def calendarDay (t : Int) : Int := t / 1440

/-- A board game asset (`BoardGame` in `BGC_operation.py`); only the fields
the embedded operations touch are kept. -/
structure BoardGame where
  game_id : String
  status : GameStatus
  times_played : Nat
  current_table : Option String
deriving Repr, DecidableEq

/-- `BoardGame.mark_available`. -/
def BoardGame.mark_available (g : BoardGame) : BoardGame :=
  { g with status := .AVAILABLE, current_table := none }

/-- The concrete kind of a play table: `PlayTableStandard`, or `PlayTableVIP`
with its `room_service_fee`. -/
inductive TableKind where
  | standard
  | vip (room_service_fee : ℚ)
deriving Repr, DecidableEq

/-- A play table (`PlayTable` in `BGC_operation.py`).  `current_customers`
holds customer identifiers, `active_order` an order id. -/
structure PlayTable where
  table_id : String
  capacity : Nat
  table_name : String
  price_per_hour : ℚ
  kind : TableKind
  status : TableStatus
  current_customers : List String
  board_games : List BoardGame
  active_order : Option String
  occupied_since : Option Int
deriving Repr, DecidableEq

/-- `PlayTable.is_available` property. -/
def PlayTable.is_available (t : PlayTable) : Bool := t.status = TableStatus.AVAILABLE

/-- `PlayTable.calculate_table_charge` / `PlayTableVIP.calculate_table_charge`:
the VIP override adds the room service fee to the base charge. -/
def PlayTable.calculate_table_charge (t : PlayTable) (hours : ℚ) : Except PyErr ℚ :=
  if hours < 0 then .error (.valueError "Hours cannot be negative")
  else match t.kind with
    | .standard => .ok (t.price_per_hour * hours)
    | .vip fee => .ok (t.price_per_hour * hours + fee)

/-- `PlayTable.assign_customer`; `now` stands for `datetime.now()`. -/
def PlayTable.assign_customer (t : PlayTable) (customer : String) (now : Int) :
    Except PyErr PlayTable :=
  if ¬ t.is_available then
    .error (.valueError ("Table " ++ t.table_name ++ " is not available"))
  else if t.current_customers.length ≥ t.capacity then
    .error (.valueError ("Table " ++ t.table_name ++ " is at capacity"))
  else
    .ok { t with
          current_customers := t.current_customers ++ [customer],
          status := .OCCUPIED,
          occupied_since :=
            match t.occupied_since with
            | none => some now
            | some x => some x }

/-- `PlayTable.clear_table`: the table is reset and every game that was on it
is returned to `Available` (the second component is the updated state of those
game objects). -/
def PlayTable.clear_table (t : PlayTable) : PlayTable × List BoardGame :=
  ({ t with
     status := .AVAILABLE,
     current_customers := [],
     board_games := [],
     active_order := none,
     occupied_since := none },
   t.board_games.map BoardGame.mark_available)

/-- A customer (`Customer`/`Member` objects from the missing person module).
`max_active_bookings = some q` embeds an object that has a
`get_max_active_bookings` method returning `q`; `none` embeds a plain
customer without that attribute (the `hasattr` test in
`ReservationManager.create_reservation` then fails). -/
structure Customer where
  person_id : String
  max_active_bookings : Option Nat
deriving Repr, DecidableEq

/-- A reservation (`Reservation` in `BGC_operation.py`).  `table` is the
creation-time snapshot of the table object; operations that mutate the live
table take its current state separately. -/
structure Reservation where
  reservation_id : String
  customer : Customer
  table : PlayTable
  guest_count : Nat
  start_datetime : Int
  end_datetime : Int
  status : ReservationStatus
  checked_in_at : Option Int
  cancellation_reason : String
deriving Repr, DecidableEq

/-- `Reservation.__init__`: validation followed by construction.  `d` is the
calendar day parsed from `date_str`; `(sh, sm)` and `(eh, em)` are the two
time-of-day strings, both combined with the same `d`. -/
def Reservation.make (reservation_id : String) (customer : Customer)
    (table : PlayTable) (d : Int) (sh sm eh em : Nat) (guest_count : Nat) :
    Except PyErr Reservation :=
  if reservation_id = "" then
    .error (.valueError "Reservation ID cannot be empty")
  else if guest_count < 1 then
    .error (.valueError "Guest count must be at least 1")
  else if guest_count > table.capacity then
    .error (.valueError "Guest count exceeds table capacity")
  else
    let start_datetime := mkDatetime d sh sm
    let end_datetime := mkDatetime d eh em
    if end_datetime ≤ start_datetime then
      .error (.valueError "End time must be after start time")
    else
      .ok { reservation_id := reservation_id,
            customer := customer,
            table := table,
            guest_count := guest_count,
            start_datetime := start_datetime,
            end_datetime := end_datetime,
            status := .PENDING,
            checked_in_at := none,
            cancellation_reason := "" }

/-- `Reservation.cancel_booking`: rejected only from `COMPLETED` and
`NO_SHOW`; otherwise sets status `CANCELLED` and stores the given reason. -/
def Reservation.cancel_booking (r : Reservation) (reason : String) :
    Except PyErr Reservation :=
  if r.status = .COMPLETED ∨ r.status = .NO_SHOW then
    .error (.valueError ("Cannot cancel reservation with status: " ++ r.status.value))
  else
    .ok { r with status := .CANCELLED, cancellation_reason := reason }

/-- `Reservation.check_in`; `t` is the current state of the reserved table,
`now` stands for `datetime.now()`.  Returns the call outcome together with
the reservation and table states after the call (state mutated before a
`raise` survives it). -/
def Reservation.check_in (r : Reservation) (t : PlayTable) (now : Int) :
    Except PyErr Unit × Reservation × PlayTable :=
  if r.status ≠ .CONFIRMED then
    (.error (.valueError "Only confirmed reservations can be checked in"), r, t)
  else
    let grace_end := r.start_datetime + RESERVATION_GRACE_PERIOD_MINUTES
    if now > grace_end then
      (.error (.valueError "Check-in time has passed grace period"),
       { r with status := .NO_SHOW }, t)
    else
      let r2 := { r with status := .CHECKED_IN, checked_in_at := some now }
      match t.assign_customer r.customer.person_id now with
      | .ok t2 => (.ok (), r2, t2)
      | .error e => (.error e, r2, t)

/-- Errors raised by `ReservationManager.create_reservation`
(`BGC_person.py`): the conflict `ValueError` or the booking-quota
`ValueError`. -/
inductive CreateErr where
  | conflict
  | quotaExceeded
deriving Repr, DecidableEq

/-- `ReservationManager._has_conflict` (`BGC_person.py`): existing
reservations whose status value is `Cancelled`, `Completed` or `No Show`
are skipped, as are reservations on a different table; the remaining ones
conflict exactly when the half-open intervals overlap. -/
def ReservationManager.has_conflict (resvs : List Reservation)
    (new_reservation : Reservation) : Bool :=
  resvs.any (fun existing =>
    decide (¬ (existing.status.value = "Cancelled" ∨
               existing.status.value = "Completed" ∨
               existing.status.value = "No Show") ∧
            existing.table.table_id = new_reservation.table.table_id ∧
            new_reservation.start_datetime < existing.end_datetime ∧
            new_reservation.end_datetime > existing.start_datetime))

/-- `ReservationManager._count_active_reservations` (`BGC_person.py`). -/
def ReservationManager.count_active_reservations (resvs : List Reservation)
    (customer : Customer) : Nat :=
  resvs.countP (fun r =>
    decide (r.customer.person_id = customer.person_id ∧
            (r.status.value = "Pending" ∨
             r.status.value = "Confirmed" ∨
             r.status.value = "Checked In")))

/-- `ReservationManager.create_reservation` (`BGC_person.py`): conflict check
first, then — only when the customer object has `get_max_active_bookings` —
the active-booking quota check; on success the reservation is stored. -/
def ReservationManager.create_reservation (resvs : List Reservation)
    (reservation : Reservation) : Except CreateErr (List Reservation) :=
  if ReservationManager.has_conflict resvs reservation then
    .error .conflict
  else
    match reservation.customer.max_active_bookings with
    | some max_allowed =>
      if ReservationManager.count_active_reservations resvs reservation.customer ≥ max_allowed then
        .error .quotaExceeded
      else
        .ok (resvs ++ [reservation])
    | none => .ok (resvs ++ [reservation])

/-- `BoardGameCafe.create_reservation` (`BGC.py`): same half-open overlap
test on same-table reservations, but with no status filter at all. -/
def BoardGameCafe.create_reservation (resvs : List Reservation)
    (reservation : Reservation) : Except PyErr (List Reservation) :=
  if resvs.any (fun r =>
      decide (r.table.table_id = reservation.table.table_id ∧
              reservation.start_datetime < r.end_datetime ∧
              reservation.end_datetime > r.start_datetime)) then
    .error (.valueError "Reservation conflict - table already booked")
  else
    .ok (resvs ++ [reservation])

/-- `BoardGameCafe.cancel_reservation` (`BGC.py`): find the reservation by
id and call `cancel_booking` on it; `True` when found, `False` otherwise.
The updated reservation list is returned alongside the outcome. -/
def BoardGameCafe.cancel_reservation :
    List Reservation → String → String → Except PyErr (Bool × List Reservation)
  | [], _, _ => .ok (false, [])
  | res :: rest, reservation_id, reason =>
    if res.reservation_id = reservation_id then
      match res.cancel_booking reason with
      | .ok res2 => .ok (true, res2 :: rest)
      | .error e => .error e
    else
      match BoardGameCafe.cancel_reservation rest reservation_id reason with
      | .ok (found, rest2) => .ok (found, res :: rest2)
      | .error e => .error e

/-- One line of an `Order` (`BGC_menu.py`). -/
structure OrderItem where
  item_id : String
  price : ℚ
  quantity : Nat
  status : String
deriving Repr, DecidableEq

/-- An `Order` (`BGC_menu.py`); `tax_rate` is set to `DEFAULT_TAX_RATE`
(7%) by the constructor. -/
structure Order where
  order_id : String
  customer : Option Customer
  table_id : Option String
  status : String
  items : List OrderItem
  discount_amount : ℚ
  tax_rate : ℚ
deriving Repr, DecidableEq

/-- `Order.calculate_subtotal`: price times quantity over non-Cancelled
lines. -/
def Order.calculate_subtotal (o : Order) : ℚ :=
  ((o.items.filter (fun i => i.status ≠ "Cancelled")).map
    (fun i => i.price * (i.quantity : ℚ))).sum

/-- `Order.calculate_tax`. -/
def Order.calculate_tax (o : Order) : ℚ :=
  (o.calculate_subtotal - o.discount_amount) * o.tax_rate

/-- `Order.calculate_total`. -/
def Order.calculate_total (o : Order) : ℚ :=
  o.calculate_subtotal - o.discount_amount + o.calculate_tax

/-- `Order.close_order`. -/
def Order.close_order (o : Order) : Order := { o with status := "Closed" }

/-- Whether a string starts with two underscores. -/
def starts_with_double_underscore (s : String) : Bool :=
  match s.data with
  | '_' :: '_' :: _ => true
  | _ => false

/-- Whether a string ends with two underscores. -/
def ends_with_double_underscore (s : String) : Bool :=
  match s.data.reverse with
  | '_' :: '_' :: _ => true
  | _ => false

/-- CPython private-name mangling: an identifier of the form `__name` (no
trailing double underscore) occurring in a `class C` body is replaced by
`_C__name`.  This applies to the `def __process_transaction` declaration in
`PaymentMethod` and to every `self.__attr` assignment and read. -/
def python_mangle (cls : String) (name : String) : String :=
  if starts_with_double_underscore name && !(ends_with_double_underscore name) then
    "_" ++ cls ++ name
  else name

/-- The abstract methods declared by `PaymentMethod` (`BGC_operation.py`):
the single `@abstractmethod def __process_transaction`, stored under its
mangled name. -/
def PaymentMethod.abstract_methods : List String :=
  [python_mangle "PaymentMethod" "__process_transaction"]

/-- The abstract methods declared by `Payment` (`BGC_operation.py`): it
derives from `ABC` but declares no `@abstractmethod`, so none. -/
def Payment.abstract_methods : List String := []

/-- The names bound in the `class Cash(PaymentMethod)` body. -/
def Cash.defined_methods : List String :=
  ["__init__", "amount_received", "change", "_process_transaction"]

/-- The names bound in the `class Card(Payment)` body. -/
def Card.defined_methods : List String :=
  ["__init__", "last_four_digits", "bank_name", "_process_transaction"]

/-- The names bound in the `class OnlinePayment(PaymentMethod)` body. -/
def OnlinePayment.defined_methods : List String :=
  ["__init__", "platform", "_process_transaction"]

/-- `ABCMeta`: an inherited abstract method stays abstract unless the
subclass binds the same (mangled) name. -/
def remaining_abstracts (inherited : List String) (defined : List String) :
    List String :=
  inherited.filter (fun n => !(defined.contains n))

/-- `Cash.__abstractmethods__`. -/
def Cash.abstracts : List String :=
  remaining_abstracts PaymentMethod.abstract_methods Cash.defined_methods

/-- `Card.__abstractmethods__`. -/
def Card.abstracts : List String :=
  remaining_abstracts Payment.abstract_methods Card.defined_methods

/-- `OnlinePayment.__abstractmethods__`. -/
def OnlinePayment.abstracts : List String :=
  remaining_abstracts PaymentMethod.abstract_methods OnlinePayment.defined_methods

/-- The instance attribute names assigned by `PaymentMethod.__init__`
(`BGC_operation.py` lines 575-580); every `self.__x = ...` there stores the
mangled name. -/
def PaymentMethod.init_attr_names : List String :=
  [python_mangle "PaymentMethod" "__timestamp",
   python_mangle "PaymentMethod" "__order",
   python_mangle "PaymentMethod" "__status",
   python_mangle "PaymentMethod" "__completed_at",
   python_mangle "PaymentMethod" "__transaction_reference"]

/-- The class-level attribute names of `PaymentMethod` (methods and
properties), searched after the instance dictionary on attribute lookup. -/
def PaymentMethod.class_attr_names : List String :=
  ["__init__", "timestamp", "payment_method", "status", "order",
   "complete_payment", python_mangle "PaymentMethod" "__process_transaction",
   "refund"]

/-- The class-level attribute names of `Payment` (`BGC_operation.py`). -/
def Payment.class_attr_names : List String :=
  ["__init__", "calculate_total", "process_payment"]

/-- `PaymentMethod.complete_payment` (`BGC_operation.py` line 599): the first
statement evaluates `self._status`.  No constructor in the file assigns an
attribute named `_status` and no class of the hierarchy defines one, so on
any instance built by `PaymentMethod.__init__` the lookup raises
`AttributeError` before any status check or transaction step runs.  `rest`
abstracts the remainder of the method body, reached only if the lookup were
to succeed. -/
def PaymentMethod.complete_payment (instance_attrs : List String)
    (rest : Except PyErr Unit) : Except PyErr Unit :=
  if "_status" ∈ instance_attrs ∨ "_status" ∈ PaymentMethod.class_attr_names then
    rest
  else
    .error (.attributeError "_status")

/-- Attribute names visible on a `Cash` instance right after
`self._amount_received = amount_received` in `Cash.__init__`: the instance
attributes written so far plus the class-level names of `Cash` and
`PaymentMethod`. -/
def Cash.attr_names_before_change : List String :=
  PaymentMethod.init_attr_names ++ ["_amount_received"] ++
    Cash.defined_methods ++ PaymentMethod.class_attr_names

/-- Result type of a (hypothetical) successful `Cash.__init__`. -/
structure CashAttrs where
  amount_received : ℚ
  change : ℚ
deriving Repr, DecidableEq

/-- The body of `Cash.__init__` (`BGC_operation.py` lines 637-643): check
the received amount against the order total, run `PaymentMethod.__init__`,
store `_amount_received`, then evaluate `self.total_amount` — a name that
resolves to no attribute, so the line raises `AttributeError`. -/
def Cash.init (_payment_id : String) (order : Order) (amount_received : ℚ) :
    Except PyErr CashAttrs :=
  if amount_received < order.calculate_total then
    .error (.valueError "Insufficient cash received")
  else if "total_amount" ∈ Cash.attr_names_before_change then
    .ok { amount_received := amount_received,
          change := amount_received - order.calculate_total }
  else
    .error (.attributeError "total_amount")

/-- `Cash(...)`: instantiation of a class whose `__abstractmethods__` is
non-empty raises `TypeError` before `__init__` runs. -/
def Cash.instantiate (payment_id : String) (order : Order)
    (amount_received : ℚ) : Except PyErr CashAttrs :=
  if Cash.abstracts ≠ [] then
    .error (.typeError "Cannot instantiate abstract class Cash with abstract method _PaymentMethod__process_transaction")
  else
    Cash.init payment_id order amount_received

/-- Result of a successful `Card.__init__`. -/
structure CardAttrs where
  payment_id : String
  total_amount : ℚ
  payment_method : String
  last_four_digits : String
  bank_name : String
deriving Repr, DecidableEq

/-- The body of `Card.__init__` (`BGC_operation.py` lines 658-664): validate
the last four digits, then `Payment.__init__` (id/order/method validation and
the order-total snapshot), then store the card fields. -/
def Card.init (payment_id : String) (order : Order) (last_four_digits : String)
    (bank_name : String) : Except PyErr CardAttrs :=
  if ¬ (last_four_digits.length = 4 ∧ last_four_digits.data.all Char.isDigit) then
    .error (.valueError "Last four digits must be exactly 4 digits")
  else if payment_id = "" then
    .error (.valueError "Payment ID cannot be empty")
  else
    .ok { payment_id := payment_id,
          total_amount := order.calculate_total,
          payment_method := "Card",
          last_four_digits := last_four_digits,
          bank_name := bank_name }

/-- `Card(...)`: `Card` derives from `Payment`, which has no abstract
methods, so instantiation runs `__init__`. -/
def Card.instantiate (payment_id : String) (order : Order)
    (last_four_digits : String) (bank_name : String) : Except PyErr CardAttrs :=
  if Card.abstracts ≠ [] then
    .error (.typeError "Cannot instantiate abstract class Card")
  else
    Card.init payment_id order last_four_digits bank_name

/-- Result of a (hypothetical) successful `OnlinePayment.__init__`. -/
structure OnlinePaymentAttrs where
  transaction_reference : String
  platform : String
deriving Repr, DecidableEq

/-- The body of `OnlinePayment.__init__` (`BGC_operation.py` lines 681-687). -/
def OnlinePayment.init (_payment_id : String) (transaction_ref : String)
    (platform : String) : Except PyErr OnlinePaymentAttrs :=
  if transaction_ref = "" then
    .error (.valueError "Transaction reference cannot be empty")
  else
    .ok { transaction_reference := transaction_ref, platform := platform }

/-- `OnlinePayment(...)`: like `Cash`, the class never overrides the mangled
abstract method, so instantiation raises `TypeError`. -/
def OnlinePayment.instantiate (payment_id : String) (transaction_ref : String)
    (platform : String) : Except PyErr OnlinePaymentAttrs :=
  if OnlinePayment.abstracts ≠ [] then
    .error (.typeError "Cannot instantiate abstract class OnlinePayment with abstract method _PaymentMethod__process_transaction")
  else
    OnlinePayment.init payment_id transaction_ref platform

/-- `TierEnum` from the person module (imported by `demo.py`). -/
inductive TierEnum where
  | SILVER
  | GOLD
  | PLATINUM
deriving Repr, DecidableEq

/-- Modelled from the spec: the `Member.get_tier` mapping of the person
module is absent from the source tree (`demo.py` imports `Member` and
`TierEnum` from `BGC_person`, which no longer defines them); section 4.1 of
the spec gives the pure mapping with inclusive thresholds Platinum at
20000, Gold at 7500, Silver at 2000, and no tier below 2000. -/
def Member.get_tier (total_spend : ℚ) : Option TierEnum :=
  if total_spend ≥ 20000 then some .PLATINUM
  else if total_spend ≥ 7500 then some .GOLD
  else if total_spend ≥ 2000 then some .SILVER
  else none

/-- Modelled from the spec: the per-tier active-booking quota of section 4.1
(Silver 2, Gold 4, Platinum 6, no tier 0), the value
`Member.get_max_active_bookings` returns. -/
def tier_max_active_bookings : Option TierEnum → Nat
  | some .SILVER => 2
  | some .GOLD => 4
  | some .PLATINUM => 6
  | none => 0

/-- Modelled from the spec: `Member.get_max_active_bookings`, the tier quota
derived from the member lifetime spend. -/
def Member.get_max_active_bookings (total_spend : ℚ) : Nat :=
  tier_max_active_bookings (Member.get_tier total_spend)

/-- The late-cancellation penalty figure computed in `demo.py`
(`expected_penalty = table.calculate_table_charge(1) * 0.5`): half of the
one-hour table charge.  This is the only place in the repository where a
cancellation penalty is computed. -/
def demo_expected_penalty (t : PlayTable) : Except PyErr ℚ :=
  match t.calculate_table_charge 1 with
  | .ok charge => .ok (charge * (1 / 2))
  | .error e => .error e

deriving instance DecidableEq for Except

/-- Fixture: standard table `T001`, capacity 4, rate 50/h (the spec scenario
table and `table1` of `demo.py`). -/
def tableT : PlayTable :=
  { table_id := "T001", capacity := 4, table_name := "Table 1",
    price_per_hour := 50, kind := .standard, status := .AVAILABLE,
    current_customers := [], board_games := [], active_order := none,
    occupied_since := none }

/-- Fixture: the same table after someone external took it (Occupied). -/
def tableT_occupied : PlayTable :=
  { tableT with
    status := .OCCUPIED, current_customers := ["CUS009"],
    occupied_since := some 800 }

/-- Fixture: VIP table `VIP01`, rate 100/h, room service fee 300
(`table3` of `demo.py`). -/
def vipTable : PlayTable :=
  { table_id := "VIP01", capacity := 8, table_name := "VIP Room Alpha",
    price_per_hour := 100, kind := .vip 300, status := .AVAILABLE,
    current_customers := [], board_games := [], active_order := none,
    occupied_since := none }

/-- Fixture: a member whose tier grants 4 active bookings. -/
def bob : Customer := { person_id := "CUS002", max_active_bookings := some 4 }

/-- Fixture: a customer object without `get_max_active_bookings`. -/
def charlie : Customer := { person_id := "CUS003", max_active_bookings := none }

/-- Fixture: a member with lifetime spend 0 (its quota is the spec tier
policy applied to spend 0). -/
def newMember : Customer :=
  { person_id := "CUS001",
    max_active_bookings := some (Member.get_max_active_bookings 0) }

/-- Fixture: Confirmed reservation 14:00-16:00 on table `T001`. -/
def res_confirmed_14_16 : Reservation :=
  { reservation_id := "RES-A", customer := charlie, table := tableT,
    guest_count := 2, start_datetime := mkDatetime 0 14 0,
    end_datetime := mkDatetime 0 16 0, status := .CONFIRMED,
    checked_in_at := none, cancellation_reason := "" }

/-- Fixture: the same 14:00-16:00 reservation already Completed. -/
def res_completed_14_16 : Reservation :=
  { res_confirmed_14_16 with reservation_id := "RES-B", status := .COMPLETED }

/-- Fixture: new reservation request 15:00-17:00 on table `T001`. -/
def res_new_15_17 : Reservation :=
  { reservation_id := "RES-C", customer := bob, table := tableT,
    guest_count := 2, start_datetime := mkDatetime 0 15 0,
    end_datetime := mkDatetime 0 17 0, status := .PENDING,
    checked_in_at := none, cancellation_reason := "" }

/-- Fixture: new reservation request 16:00-18:00 on table `T001`. -/
def res_new_16_18 : Reservation :=
  { reservation_id := "RES-D", customer := bob, table := tableT,
    guest_count := 2, start_datetime := mkDatetime 0 16 0,
    end_datetime := mkDatetime 0 18 0, status := .PENDING,
    checked_in_at := none, cancellation_reason := "" }

/-- Fixture: Confirmed reservation 14:00-16:00 held by `bob` on `T001`,
used for the check-in claims. -/
def res_checkin : Reservation :=
  { reservation_id := "RES-E", customer := bob, table := tableT,
    guest_count := 2, start_datetime := mkDatetime 0 14 0,
    end_datetime := mkDatetime 0 16 0, status := .CONFIRMED,
    checked_in_at := none, cancellation_reason := "" }

/-- Fixture: Confirmed reservation on the rate-50 table, the spec cancellation
scenario (penalty claims). -/
def res_c5 : Reservation :=
  { reservation_id := "RES-F", customer := bob, table := tableT,
    guest_count := 2, start_datetime := mkDatetime 0 14 0,
    end_datetime := mkDatetime 0 16 0, status := .CONFIRMED,
    checked_in_at := none, cancellation_reason := "" }

/-- Fixture: a reservation already Cancelled with a recorded reason. -/
def res_c6 : Reservation :=
  { reservation_id := "RES-G", customer := bob, table := tableT,
    guest_count := 2, start_datetime := mkDatetime 0 14 0,
    end_datetime := mkDatetime 0 16 0, status := .CANCELLED,
    checked_in_at := none, cancellation_reason := "Change of plans" }

/-- Fixture: a pending 15:00-17:00 reservation request by the spend-0 member. -/
def res_c7 : Reservation :=
  { reservation_id := "RES-H", customer := newMember, table := tableT,
    guest_count := 2, start_datetime := mkDatetime 0 15 0,
    end_datetime := mkDatetime 0 17 0, status := .PENDING,
    checked_in_at := none, cancellation_reason := "" }

/-- Fixture: an order whose `calculate_total` is exactly 180 (one line of
price 18000/107, quantity 1; with the default 7% tax the total is 180). -/
def order180 : Order :=
  { order_id := "ORD-0001", customer := none, table_id := none,
    status := "Open",
    items := [{ item_id := "F001", price := 18000 / 107, quantity := 1,
                status := "Pending" }],
    discount_amount := 0, tax_rate := 7 / 100 }

/-- C1: the spec says `complete_payment` fails with an invalid-state error
from any non-Pending status and performs the completion transaction from
Pending.  In the code, nothing of the sort can run: the method's first
statement reads `self._status`, an attribute that no constructor assigns
(`PaymentMethod.__init__` stores the mangled `_PaymentMethod__status`) and
no class defines, so the read raises `AttributeError` before any status
check; moreover `Cash` and `OnlinePayment` keep the mangled abstract method
`_PaymentMethod__process_transaction` unoverridden and cannot be
instantiated at all, and `Card` derives from `Payment`, which has no
`complete_payment` attribute. -/
theorem c1_complete_payment_always_raises :
    (∀ rest : Except PyErr Unit,
        PaymentMethod.complete_payment PaymentMethod.init_attr_names rest =
          .error (.attributeError "_status")) ∧
    Cash.abstracts = ["_PaymentMethod__process_transaction"] ∧
    OnlinePayment.abstracts = ["_PaymentMethod__process_transaction"] ∧
    ¬ ("complete_payment" ∈ Payment.class_attr_names ++ Card.defined_methods) := by
  refine ⟨fun rest => ?_, by decide, by decide, by decide⟩
  rw [PaymentMethod.complete_payment, if_neg (by decide)]

/-- C8: the spec scenario for payment construction.  `Card` validation
behaves as claimed, but `Cash` and `OnlinePayment` construction raises
`TypeError` for every argument combination — the mangled abstract method
`_PaymentMethod__process_transaction` is never overridden, so instantiation
fails before the insufficient-funds / empty-reference checks can run — and
the sufficient-funds path of `Cash.__init__` would in any case die reading
the nonexistent `self.total_amount`. -/
theorem c8_payment_construction_validation :
    order180.calculate_total = 180 ∧
    Cash.instantiate "PAY001" order180 200 =
      .error (.typeError "Cannot instantiate abstract class Cash with abstract method _PaymentMethod__process_transaction") ∧
    Cash.instantiate "PAY002" order180 100 =
      .error (.typeError "Cannot instantiate abstract class Cash with abstract method _PaymentMethod__process_transaction") ∧
    Cash.init "PAY001" order180 200 = .error (.attributeError "total_amount") ∧
    Cash.init "PAY002" order180 100 = .error (.valueError "Insufficient cash received") ∧
    Card.instantiate "PAY003" order180 "1234" "Bangkok Bank" =
      .ok { payment_id := "PAY003", total_amount := order180.calculate_total,
            payment_method := "Card", last_four_digits := "1234",
            bank_name := "Bangkok Bank" } ∧
    Card.instantiate "PAY004" order180 "12a4" "Bangkok Bank" =
      .error (.valueError "Last four digits must be exactly 4 digits") ∧
    Card.instantiate "PAY006" order180 "123" "Bangkok Bank" =
      .error (.valueError "Last four digits must be exactly 4 digits") ∧
    OnlinePayment.instantiate "PAY005" "" "PromptPay" =
      .error (.typeError "Cannot instantiate abstract class OnlinePayment with abstract method _PaymentMethod__process_transaction") := by
  have h : ¬ ("Pending" = "Cancelled") := by decide
  refine ⟨?_, by decide, ?_, ?_, ?_, rfl, by decide, by decide, by decide⟩
  · norm_num [Order.calculate_total, Order.calculate_subtotal, Order.calculate_tax, order180,
      List.filter_cons, List.map_cons, List.map_nil, List.sum_cons, List.sum_nil, if_neg h]
  · rw [Cash.instantiate, if_pos (by decide)]
  · rw [Cash.init, if_neg ?hlt, if_neg (by decide)]
    case hlt =>
      norm_num [Order.calculate_total, Order.calculate_subtotal, Order.calculate_tax, order180,
        List.filter_cons, List.map_cons, List.map_nil, List.sum_cons, List.sum_nil, if_neg h]
  · rw [Cash.init, if_pos ?hlt2]
    case hlt2 =>
      norm_num [Order.calculate_total, Order.calculate_subtotal, Order.calculate_tax, order180,
        List.filter_cons, List.map_cons, List.map_nil, List.sum_cons, List.sum_nil, if_neg h]

/-- Helper: combining a calendar day with a valid time of day lands on that
calendar day. -/
theorem calendarDay_mkDatetime (d : Int) (h m : Nat) (hh : h < 24) (hm : m < 60) :
    calendarDay (mkDatetime d h m) = d := by
  unfold calendarDay mkDatetime
  omega

/-- C10: both timestamps of a successfully constructed `Reservation` fall on
the same calendar date, because `Reservation.__init__` combines the single
date argument with the two time-of-day strings; consequently an intended
overnight reservation (end time of day at or before the start time of day)
is always rejected by the end-after-start validation. -/
theorem c10_reservation_same_day (reservation_id : String) (customer : Customer)
    (table : PlayTable) (d : Int) (sh sm eh em guest_count : Nat)
    (hsh : sh < 24) (hsm : sm < 60) (heh : eh < 24) (hem : em < 60) :
    (∀ res, Reservation.make reservation_id customer table d sh sm eh em guest_count = .ok res →
        calendarDay res.start_datetime = calendarDay res.end_datetime) ∧
    (eh * 60 + em ≤ sh * 60 + sm →
      reservation_id ≠ "" → 1 ≤ guest_count → guest_count ≤ table.capacity →
      Reservation.make reservation_id customer table d sh sm eh em guest_count =
        .error (.valueError "End time must be after start time")) := by
  constructor
  · intro res hres
    simp only [Reservation.make] at hres
    split_ifs at hres
    injection hres with h2
    rw [← h2]
    show calendarDay (mkDatetime d sh sm) = calendarDay (mkDatetime d eh em)
    rw [calendarDay_mkDatetime d sh sm hsh hsm, calendarDay_mkDatetime d eh em heh hem]
  · intro hord hne hg1 hg2
    simp only [Reservation.make]
    split_ifs with h1 h2 h3 h4
    · exact absurd h1 hne
    · omega
    · omega
    · rfl
    · exfalso
      simp only [mkDatetime] at h4
      omega

/-- C3: for a Confirmed reservation, checking in strictly later than
start + 15 minutes moves the reservation to NoShow and fails the call (the
NoShow mutation persists although the call raises); at or before
start + 15 minutes this branch is not triggered and the reservation becomes
CheckedIn instead. -/
theorem c3_grace_period_no_show (r : Reservation) (t : PlayTable) (now : Int)
    (h : r.status = .CONFIRMED) :
    (now > r.start_datetime + RESERVATION_GRACE_PERIOD_MINUTES →
      Reservation.check_in r t now =
        (.error (.valueError "Check-in time has passed grace period"),
         { r with status := .NO_SHOW }, t)) ∧
    (now ≤ r.start_datetime + RESERVATION_GRACE_PERIOD_MINUTES →
      (Reservation.check_in r t now).2.1.status = ReservationStatus.CHECKED_IN) := by
  have hst : ¬ (r.status ≠ ReservationStatus.CONFIRMED) := by simp [h]
  constructor
  · intro hl
    simp only [Reservation.check_in]
    rw [if_neg hst, if_pos hl]
  · intro hl
    simp only [Reservation.check_in]
    rw [if_neg hst, if_neg (by omega)]
    cases hassign : t.assign_customer r.customer.person_id now <;> simp [hassign]

/-- Witness for C3 at a concrete late check-in (start 14:00, now 14:16). -/
theorem c3_witness :
    Reservation.check_in res_checkin tableT 856 =
      (.error (.valueError "Check-in time has passed grace period"),
       { res_checkin with status := .NO_SHOW }, tableT) :=
  (c3_grace_period_no_show res_checkin tableT 856 rfl).1 (by decide)

/-- Counterexample to C2: a Confirmed reservation checked in within the
grace period against a table that is already Occupied — `assign_customer`
raises, the call fails, and the reservation status REMAINS CheckedIn: the
status change is not rolled back. -/
theorem c2_counterexample :
    Reservation.check_in res_checkin tableT_occupied 850 =
      (.error (.valueError "Table Table 1 is not available"),
       { res_checkin with status := .CHECKED_IN, checked_in_at := some 850 },
       tableT_occupied) ∧
    (Reservation.check_in res_checkin tableT_occupied 850).2.1.status =
      ReservationStatus.CHECKED_IN := by
  constructor <;> decide

/-- C2 (amended): for a Confirmed reservation checked in within the grace
period, when the table assignment fails the check-in call fails but the
reservation is left in CheckedIn status with `checked_in_at` set — the
status transition is not rolled back on table-assignment failure. -/
theorem c2_checkin_failure_keeps_checked_in (r : Reservation) (t : PlayTable)
    (now : Int) (e : PyErr)
    (h : r.status = .CONFIRMED)
    (hg : ¬ now > r.start_datetime + RESERVATION_GRACE_PERIOD_MINUTES)
    (he : t.assign_customer r.customer.person_id now = .error e) :
    Reservation.check_in r t now =
      (.error e, { r with status := .CHECKED_IN, checked_in_at := some now }, t) := by
  have hst : ¬ (r.status ≠ ReservationStatus.CONFIRMED) := by simp [h]
  simp only [Reservation.check_in]
  rw [if_neg hst, if_neg hg, he]

/-- Witness for C2 (amended) at a concrete occupied table. -/
theorem c2_witness :
    Reservation.check_in res_checkin tableT_occupied 851 =
      (.error (.valueError "Table Table 1 is not available"),
       { res_checkin with status := .CHECKED_IN, checked_in_at := some 851 },
       tableT_occupied) :=
  c2_checkin_failure_keeps_checked_in res_checkin tableT_occupied 851
    (.valueError "Table Table 1 is not available") rfl (by decide) (by decide)

/-- Counterexample to C5: cancelling the Confirmed rate-50 reservation of
the spec scenario stores the caller-supplied reason verbatim — the
post-state records no penalty amount (and is the same whether the table is
the standard rate-50 table or the VIP table). -/
theorem c5_counterexample :
    Reservation.cancel_booking res_c5 "Emergency came up" =
      .ok { res_c5 with
            status := .CANCELLED,
            cancellation_reason := "Emergency came up" } ∧
    Reservation.cancel_booking { res_c5 with table := vipTable } "Emergency came up" =
      .ok { res_c5 with
            table := vipTable, status := .CANCELLED,
            cancellation_reason := "Emergency came up" } ∧
    ({ res_c5 with
       status := .CANCELLED,
       cancellation_reason := "Emergency came up" } : Reservation).cancellation_reason =
      "Emergency came up" := by
  refine ⟨by decide, by decide, rfl⟩

/-- C5 (amended): `cancel_booking` applies no monetary penalty and stores
the caller-supplied reason verbatim regardless of how close to the start the
cancellation happens; the 50%-of-one-hour penalty figure exists only as the
display computation of `demo.py`, where it evaluates to 25 for the rate-50
standard table and to half of rate + room-service fee for a VIP table. -/
theorem c5_no_penalty_recorded :
    (∀ (r : Reservation) (reason : String),
        ¬ (r.status = .COMPLETED ∨ r.status = .NO_SHOW) →
        Reservation.cancel_booking r reason =
          .ok { r with status := .CANCELLED, cancellation_reason := reason }) ∧
    demo_expected_penalty tableT = .ok 25 ∧
    (∀ (t : PlayTable) (fee : ℚ), t.kind = .vip fee →
        demo_expected_penalty t = .ok ((t.price_per_hour + fee) * (1 / 2))) := by
  refine ⟨fun r reason h => ?_, ?_, fun t fee hk => ?_⟩
  · rw [Reservation.cancel_booking, if_neg h]
  · simp only [demo_expected_penalty, PlayTable.calculate_table_charge, tableT]
    norm_num
  · simp only [demo_expected_penalty, PlayTable.calculate_table_charge, hk]
    rw [if_neg (by norm_num)]
    norm_num

/-- Witness for C5 (amended): concrete cancellation and the demo penalty
figure of the VIP table (half of 100 + 300). -/
theorem c5_witness :
    Reservation.cancel_booking res_c5 "Client meeting rescheduled" =
      .ok { res_c5 with
            status := .CANCELLED,
            cancellation_reason := "Client meeting rescheduled" } ∧
    demo_expected_penalty vipTable = .ok 200 := by
  refine ⟨c5_no_penalty_recorded.1 res_c5 "Client meeting rescheduled" (by decide), ?_⟩
  have h := c5_no_penalty_recorded.2.2 vipTable 300 rfl
  rw [h]
  norm_num [vipTable]

/-- Counterexample to C6: cancelling an already-Cancelled reservation
succeeds again (the wrapper returns `True`) and overwrites the stored
cancellation reason. -/
theorem c6_counterexample :
    Reservation.cancel_booking res_c6 "Second cancellation" =
      .ok { res_c6 with cancellation_reason := "Second cancellation" } ∧
    BoardGameCafe.cancel_reservation [res_c6] "RES-G" "Second cancellation" =
      .ok (true, [{ res_c6 with cancellation_reason := "Second cancellation" }]) ∧
    ¬ ({ res_c6 with cancellation_reason := "Second cancellation" } :
        Reservation).cancellation_reason = "Change of plans" := by
  refine ⟨by decide, by decide, by decide⟩

/-- C6 (amended): `cancel_booking` on an already-Cancelled reservation
succeeds — only Completed and NoShow are rejected — and replaces the stored
cancellation reason with the new one; `BoardGameCafe.cancel_reservation`
reports `True` for such a second cancellation. -/
theorem c6_second_cancel_overwrites (r : Reservation) (reason : String)
    (h : r.status = .CANCELLED) :
    Reservation.cancel_booking r reason =
      .ok { r with status := .CANCELLED, cancellation_reason := reason } ∧
    BoardGameCafe.cancel_reservation [r] r.reservation_id reason =
      .ok (true, [{ r with status := .CANCELLED, cancellation_reason := reason }]) := by
  have hok : Reservation.cancel_booking r reason =
      .ok { r with status := .CANCELLED, cancellation_reason := reason } := by
    rw [Reservation.cancel_booking, if_neg (by simp [h])]
  refine ⟨hok, ?_⟩
  simp [BoardGameCafe.cancel_reservation, hok]

/-- Witness for C6 (amended) on the concrete Cancelled reservation. -/
theorem c6_witness :
    Reservation.cancel_booking res_c6 "Late cancel again" =
      .ok { res_c6 with
            status := .CANCELLED,
            cancellation_reason := "Late cancel again" } ∧
    BoardGameCafe.cancel_reservation [res_c6] res_c6.reservation_id "Late cancel again" =
      .ok (true, [{ res_c6 with
                    status := .CANCELLED,
                    cancellation_reason := "Late cancel again" }]) :=
  c6_second_cancel_overwrites res_c6 "Late cancel again" rfl

/-- Helper: `ReservationManager._has_conflict` holds exactly when some
stored reservation is in none of the skipped statuses, is on the same
table, and overlaps half-open. -/
theorem rm_has_conflict_iff (resvs : List Reservation) (r : Reservation) :
    ReservationManager.has_conflict resvs r = true ↔
      ∃ e ∈ resvs,
        e.status.value ≠ "Cancelled" ∧ e.status.value ≠ "Completed" ∧
        e.status.value ≠ "No Show" ∧
        e.table.table_id = r.table.table_id ∧
        r.start_datetime < e.end_datetime ∧ r.end_datetime > e.start_datetime := by
  simp [ReservationManager.has_conflict, List.any_eq_true, not_or, and_assoc]

/-- Helper: `ReservationManager.create_reservation` raises the conflict
error exactly when `_has_conflict` holds (the conflict check runs before
the quota check). -/
theorem rm_create_conflict_iff (resvs : List Reservation) (r : Reservation) :
    ReservationManager.create_reservation resvs r = .error .conflict ↔
      ReservationManager.has_conflict resvs r = true := by
  cases hb : ReservationManager.has_conflict resvs r with
  | true => simp [ReservationManager.create_reservation, hb]
  | false =>
    simp only [ReservationManager.create_reservation, hb, Bool.false_eq_true, if_false]
    split
    · split <;> simp
    · simp

/-- Helper: `BoardGameCafe.create_reservation` raises its conflict error
exactly when some stored reservation on the same table overlaps half-open —
with no status filter. -/
theorem bgc_create_conflict_iff (resvs : List Reservation) (r : Reservation) :
    BoardGameCafe.create_reservation resvs r =
        .error (.valueError "Reservation conflict - table already booked") ↔
      ∃ e ∈ resvs,
        e.table.table_id = r.table.table_id ∧
        r.start_datetime < e.end_datetime ∧ r.end_datetime > e.start_datetime := by
  cases hb : resvs.any (fun e =>
      decide (e.table.table_id = r.table.table_id ∧
              r.start_datetime < e.end_datetime ∧
              r.end_datetime > e.start_datetime)) with
  | true =>
    rw [List.any_eq_true] at hb
    simp only [BoardGameCafe.create_reservation]
    rw [if_pos]
    · simpa [List.any_eq_true] using hb
    · simpa [List.any_eq_true] using hb
  | false =>
    rw [← Bool.not_eq_true, List.any_eq_true] at hb
    simp only [BoardGameCafe.create_reservation]
    rw [if_neg]
    · simpa using hb
    · simpa using hb

/-- Counterexample to C4: a stored Completed reservation 14:00-16:00 on
table T is not Cancelled and overlaps a new 15:00-17:00 request, yet
`ReservationManager.create_reservation` accepts the request instead of
raising the conflict error. -/
theorem c4_counterexample :
    res_completed_14_16.status.value ≠ "Cancelled" ∧
    res_completed_14_16.table.table_id = res_new_15_17.table.table_id ∧
    res_new_15_17.start_datetime < res_completed_14_16.end_datetime ∧
    res_new_15_17.end_datetime > res_completed_14_16.start_datetime ∧
    ReservationManager.create_reservation [res_completed_14_16] res_new_15_17 =
      .ok [res_completed_14_16, res_new_15_17] := by
  refine ⟨by decide, by decide, by decide, by decide, by decide⟩

/-- C4 (amended): `ReservationManager.create_reservation` rejects with the
conflict error exactly when some stored reservation whose status is not in
\x7bCancelled, Completed, No Show\x7d is on the same table and satisfies
`newStart < existingEnd ∧ newEnd > existingStart` (half-open);
`BoardGameCafe.create_reservation` in `BGC.py` applies the same half-open
test with no status filter at all.  The spec scenario holds: against a
Confirmed 14:00-16:00 reservation on T, a 15:00-17:00 request fails with the
conflict error and a 16:00-18:00 request succeeds. -/
theorem c4_overlap_rule :
    (∀ (resvs : List Reservation) (r : Reservation),
        ReservationManager.create_reservation resvs r = .error .conflict ↔
          ∃ e ∈ resvs,
            e.status.value ≠ "Cancelled" ∧ e.status.value ≠ "Completed" ∧
            e.status.value ≠ "No Show" ∧
            e.table.table_id = r.table.table_id ∧
            r.start_datetime < e.end_datetime ∧ r.end_datetime > e.start_datetime) ∧
    (∀ (resvs : List Reservation) (r : Reservation),
        BoardGameCafe.create_reservation resvs r =
            .error (.valueError "Reservation conflict - table already booked") ↔
          ∃ e ∈ resvs,
            e.table.table_id = r.table.table_id ∧
            r.start_datetime < e.end_datetime ∧ r.end_datetime > e.start_datetime) ∧
    ReservationManager.create_reservation [res_confirmed_14_16] res_new_15_17 =
      .error .conflict ∧
    ReservationManager.create_reservation [res_confirmed_14_16] res_new_16_18 =
      .ok [res_confirmed_14_16, res_new_16_18] ∧
    BoardGameCafe.create_reservation [res_confirmed_14_16] res_new_15_17 =
      .error (.valueError "Reservation conflict - table already booked") ∧
    BoardGameCafe.create_reservation [res_confirmed_14_16] res_new_16_18 =
      .ok [res_confirmed_14_16, res_new_16_18] := by
  refine ⟨fun resvs r => ?_, fun resvs r => ?_, by decide, by decide, by decide, by decide⟩
  · exact (rm_create_conflict_iff resvs r).trans (rm_has_conflict_iff resvs r)
  · exact bgc_create_conflict_iff resvs r

/-- C7: when no conflict fires first and the customer object exposes
`get_max_active_bookings`, creation is rejected with the quota error exactly
when the count of that member reservations in status Pending, Confirmed or
Checked In reaches the quota; a member whose spend is 0 has quota 0 under
the spec tier policy and is never accepted, on a first attempt or any
other. -/
theorem c7_quota_enforcement :
    (∀ (resvs : List Reservation) (r : Reservation) (q : Nat),
        ReservationManager.has_conflict resvs r = false →
        r.customer.max_active_bookings = some q →
        (ReservationManager.create_reservation resvs r = .error .quotaExceeded ↔
          q ≤ ReservationManager.count_active_reservations resvs r.customer)) ∧
    (∀ (resvs : List Reservation) (r : Reservation),
        r.customer.max_active_bookings = some (Member.get_max_active_bookings 0) →
        ∀ out, ReservationManager.create_reservation resvs r ≠ .ok out) := by
  constructor
  · intro resvs r q hc hq
    simp only [ReservationManager.create_reservation, hc, Bool.false_eq_true, if_false, hq]
    split <;> simp_all
  · intro resvs r hq out
    have h0 : Member.get_max_active_bookings 0 = 0 := rfl
    rw [h0] at hq
    cases hb : ReservationManager.has_conflict resvs r with
    | true => simp [ReservationManager.create_reservation, hb]
    | false =>
      simp [ReservationManager.create_reservation, hb, hq, Nat.zero_le]

/-- Witness for C7: the spend-0 member first attempt on an empty
reservation store is rejected with the quota error. -/
theorem c7_witness :
    ReservationManager.create_reservation [] res_c7 = .error .quotaExceeded :=
  (c7_quota_enforcement.1 [] res_c7 0 rfl (by decide)).mpr (Nat.zero_le _)

/-- C9: the tier mapping is a pure function of lifetime spend with
inclusive thresholds — Platinum iff spend at least 20000, Gold iff at least
7500 and below 20000, Silver iff at least 2000 and below 7500, no tier iff
below 2000; the boundary values 2000, 7500 and 20000 resolve to the higher
tier and a spend just below 2000 resolves to none. -/
theorem c9_tier_thresholds :
    (∀ s : ℚ,
      (Member.get_tier s = some .PLATINUM ↔ 20000 ≤ s) ∧
      (Member.get_tier s = some .GOLD ↔ 7500 ≤ s ∧ s < 20000) ∧
      (Member.get_tier s = some .SILVER ↔ 2000 ≤ s ∧ s < 7500) ∧
      (Member.get_tier s = none ↔ s < 2000)) ∧
    Member.get_tier 2000 = some .SILVER ∧
    Member.get_tier 7500 = some .GOLD ∧
    Member.get_tier 20000 = some .PLATINUM ∧
    Member.get_tier (2000 - 1 / 100) = none := by
  refine ⟨fun s => ?_, ?_, ?_, ?_, ?_⟩
  · unfold Member.get_tier
    split_ifs with h1 h2 h3
    · exact ⟨⟨fun _ => h1, fun _ => rfl⟩,
             ⟨fun hx => by simp at hx, fun hx => by exfalso; linarith [hx.2]⟩,
             ⟨fun hx => by simp at hx, fun hx => by exfalso; linarith [hx.2]⟩,
             ⟨fun hx => by simp at hx, fun hx => by exfalso; linarith⟩⟩
    · exact ⟨⟨fun hx => by simp at hx, fun hx => by exfalso; linarith⟩,
             ⟨fun _ => ⟨h2, by linarith⟩, fun _ => rfl⟩,
             ⟨fun hx => by simp at hx, fun hx => by exfalso; linarith [hx.2]⟩,
             ⟨fun hx => by simp at hx, fun hx => by exfalso; linarith⟩⟩
    · exact ⟨⟨fun hx => by simp at hx, fun hx => by exfalso; linarith⟩,
             ⟨fun hx => by simp at hx, fun hx => by exfalso; linarith [hx.1]⟩,
             ⟨fun _ => ⟨h3, by linarith⟩, fun _ => rfl⟩,
             ⟨fun hx => by simp at hx, fun hx => by exfalso; linarith⟩⟩
    · exact ⟨⟨fun hx => by simp at hx, fun hx => by exfalso; linarith⟩,
             ⟨fun hx => by simp at hx, fun hx => by exfalso; linarith [hx.1]⟩,
             ⟨fun hx => by simp at hx, fun hx => by exfalso; linarith [hx.1]⟩,
             ⟨fun _ => by linarith, fun _ => rfl⟩⟩
  · rw [Member.get_tier, if_neg (by norm_num), if_neg (by norm_num), if_pos (by norm_num)]
  · rw [Member.get_tier, if_neg (by norm_num), if_pos (by norm_num)]
  · rw [Member.get_tier, if_pos (by norm_num)]
  · rw [Member.get_tier, if_neg (by norm_num), if_neg (by norm_num), if_neg (by norm_num)]

/-- Witness for C10: a 22:00-01:00 request (an intended overnight booking)
is rejected as end before start. -/
theorem c10_witness :
    Reservation.make "RES-N" bob tableT 0 22 0 1 0 2 =
      .error (.valueError "End time must be after start time") :=
  (c10_reservation_same_day "RES-N" bob tableT 0 22 0 1 0 2
      (by decide) (by decide) (by decide) (by decide)).2
    (by decide) (by decide) (by decide) (by decide)
